import Mathlib

/-!
Verification development for the rtv OAuth module (src/rtv/oauth.py).

Shallow embedding conventions:
* Python `None`-able strings become `Option String`; Python string truthiness
  (`if s:`) becomes `truthy`.
* `time.time()` instants and header numerals are modelled as rationals (`ℚ`),
  i.e. header values are taken after lexing to numbers; a header that is
  absent from the map models the `KeyError` raised by direct indexing.
* Raising code is modelled with `Except String`, the error string naming the
  Python exception.
* Query strings are modelled after percent-decoding and `&`/`=` splitting, as
  the ordered list of key-value pairs handed to `parse_qs`.
-/

namespace RTV

/-- The shared `OAuthHandler.params` record: the three callback query
parameters, each possibly absent. -/
structure CallbackParams where
  state : Option String
  code : Option String
  error : Option String
deriving DecidableEq, Repr

/-- Python truthiness of an optional string: `None` and the empty string are
falsy, every other string is truthy. -/
def truthy : Option String → Bool
  | none => false
  | some s => s ≠ ""

/-- Model of `parse_qs(query)[k]`: the values bound to key `k`, in order of
occurrence, blank values dropped (`keep_blank_values` defaults to `False`).
An absent key corresponds to the empty list. -/
def parseQsValues (pairs : List (String × String)) (k : String) : List String :=
  (pairs.filter (fun kv => kv.1 = k ∧ kv.2 ≠ "")).map Prod.snd

/-- Model of the three assignments in `OAuthHandler.do_GET`:
`self.params[k] = qs[k][0] if k in qs else None` for each of the three keys.
All three fields are always (re)assigned. -/
def writeParams (query : List (String × String)) : CallbackParams :=
  { state := (parseQsValues query "state").head?
    code := (parseQsValues query "code").head?
    error := (parseQsValues query "error").head? }

/-- The observable effects of one `OAuthHandler.do_GET` call: the HTTP status
codes written to the client in order, the resulting shared params record, and
whether an HTML body was built and written. -/
structure DoGetResult where
  responses : List Nat
  params : CallbackParams
  bodyWritten : Bool
deriving DecidableEq, Repr

/-- Model of `OAuthHandler.do_GET`. Note the source sends `404` when the path
is not `/` but does not return: it still parses the query string, overwrites
all three params and writes a `200` response with a body. -/
def do_GET (prior : CallbackParams) (path : String)
    (query : List (String × String)) : DoGetResult :=
  let errorResponses := if path ≠ "/" then [404] else []
  let _ := prior
  { responses := errorResponses ++ [200]
    params := writeParams query
    bodyWritten := true }

/-- The four canned messages `OAuthHandler.build_body` can choose from. -/
inductive OAuthMessage where
  | accessDenied
  | oauthError (error : String)
  | invalid
  | success
deriving DecidableEq, Repr

/-- Model of the message selection in `OAuthHandler.build_body` (the chosen
message is then substituted into the HTML template; template IO is out of
scope of the claims). -/
def build_body_message (p : CallbackParams) : OAuthMessage :=
  if p.error = some "access_denied" then .accessDenied
  else if p.error ≠ none then .oauthError (p.error.getD "")
  else if p.state = none ∨ p.code = none then .invalid
  else .success

/-- Modelled from the spec: the four-way response-message precedence exactly
as the spec sentence states it — `error == "access_denied"` → denied;
`error` present (any other value) → provider-error message parameterized by
the error string; `state` or `code` absent → invalid message; otherwise →
success message. -/
def specMessageChoice (p : CallbackParams) : OAuthMessage :=
  match p.error with
  | some e => if e = "access_denied" then .accessDenied else .oauthError e
  | none => if p.state = none ∨ p.code = none then .invalid else .success

/-- Outcome of the external call `reddit.refresh_access_information(token)`,
as observed by `OAuthHelper.authorize`: success, a praw `HTTPException`
carrying the status code of its `_raw` response, a praw `OAuthException`, or
an exception of any other class (not caught by the `except` clause). -/
inductive RefreshCallResult where
  | success
  | httpException (statusCode : Nat)
  | oauthException
  | otherException (name : String)
deriving DecidableEq, Repr

/-- The externally visible actions `OAuthHelper.authorize` can perform on its
collaborators, in program order. -/
inductive Action where
  | clearAuthentication
  | deleteRefreshToken
  | getAccessInformation (code : Option String)
  | setRefreshToken (token : String)
  | saveRefreshToken
  | showNotification (message : String)
deriving DecidableEq, Repr

/-- How one `OAuthHelper.authorize` call ends. -/
inductive AuthorizeOutcome where
  | refreshSucceeded
  | raisedInvalidRefreshToken
  | raisedOriginal (e : RefreshCallResult)
  | browserAborted
  | deniedAccess
  | authenticationError
  | ambiguousReturn
  | uuidMismatch
  | exchangeFailed
  | loggedIn
deriving DecidableEq, Repr

/-- Result record of one `authorize` call: collaborator actions in order, the
final outcome, and the value of `config.refresh_token` afterwards. -/
structure AuthorizeResult where
  actions : List Action
  outcome : AuthorizeOutcome
  refreshToken : Option String
deriving DecidableEq, Repr

/-- Environment of one interactive attempt: `term.display`, whether the
browser-launch (and, in graphical mode, the serve loop) completed without an
exception, the query pairs of the callback request the server handled (if
any), the result of `reddit.get_access_information` (`none` models the loader
recording an exception), `reddit.user.name`, and `config['persistent']`. -/
structure InteractiveEnv where
  display : Bool
  browserOk : Bool
  request : Option (List (String × String))
  exchange : Option String
  username : String
  persistent : Bool

/-- Model of `self.params.update(state=None, code=None, error=None)`: every
field of the shared record is overwritten with `None`. -/
def resetUpdate (p : CallbackParams) : CallbackParams :=
  { p with state := none, code := none, error := none }

/-- The params record `authorize` reads at its validation step: the record is
reset at entry, then the single handled callback request (if any) overwrites
all three fields via `do_GET`. -/
def paramsSeen (prior : CallbackParams) (request : Option (List (String × String))) :
    CallbackParams :=
  match request with
  | none => resetUpdate prior
  | some query => writeParams query

/-- Model of `OAuthHelper.clear_oauth_data`: clear the client's in-memory
authentication, then delete the persisted refresh token. -/
def clear_oauth_data : List Action :=
  [.clearAuthentication, .deleteRefreshToken]

/-- Model of the stored-refresh-token branch of `authorize` (source lines
135-156): try the silent refresh; on an `HTTPException` whose status is not
400, re-raise it; on an `HTTPException` with status 400 or an
`OAuthException`, purge credentials and raise `InvalidRefreshToken`; any
other exception class is not caught and propagates. -/
def refreshBranch (storedToken : Option String) (r : RefreshCallResult) :
    List Action × AuthorizeOutcome × Option String :=
  match r with
  | .success => ([], .refreshSucceeded, storedToken)
  | .httpException status =>
    if status ≠ 400 then ([], .raisedOriginal (.httpException status), storedToken)
    else (clear_oauth_data, .raisedInvalidRefreshToken, none)
  | .oauthException => (clear_oauth_data, .raisedInvalidRefreshToken, none)
  | .otherException n => ([], .raisedOriginal (.otherException n), storedToken)

/-- Model of the validation cascade and code exchange of `authorize` (source
lines 203-226), applied to the params visible after the interactive phase. -/
def validateAndExchange (p : CallbackParams) (csrf : String) (env : InteractiveEnv)
    (storedToken : Option String) : List Action × AuthorizeOutcome × Option String :=
  if p.error = some "access_denied" then
    ([.showNotification "Denied access"], .deniedAccess, storedToken)
  else if truthy p.error then
    ([.showNotification "Authentication error"], .authenticationError, storedToken)
  else if p.state = none then
    ([], .ambiguousReturn, storedToken)
  else if p.state ≠ some csrf then
    ([.showNotification "UUID mismatch"], .uuidMismatch, storedToken)
  else
    match env.exchange with
    | none => ([.getAccessInformation p.code], .exchangeFailed, storedToken)
    | some tok =>
      ([.getAccessInformation p.code,
        .showNotification ("Welcome " ++ env.username ++ "!"),
        .setRefreshToken tok] ++ (if env.persistent then [.saveRefreshToken] else []),
       .loggedIn, some tok)

/-- Model of `OAuthHelper.authorize`. Inputs stand for the nondeterministic
environment: the prior contents of the shared params record, the stored
refresh token, the behaviour of the external refresh call, the interactive
environment, and the fresh `uuid.uuid4().hex` value `csrf`. In graphical mode
a loader exception (browser failure) aborts before validation; in headless
mode a browser failure only shows a notification and validation still runs. -/
def authorize (prior : CallbackParams) (storedToken : Option String)
    (refreshResult : RefreshCallResult) (env : InteractiveEnv) (csrf : String) :
    AuthorizeResult :=
  if truthy storedToken then
    let r := refreshBranch storedToken refreshResult
    ⟨r.1, r.2.1, r.2.2⟩
  else if env.display ∧ ¬env.browserOk then
    ⟨[], .browserAborted, storedToken⟩
  else
    let notif : List Action :=
      if ¬env.display ∧ ¬env.browserOk then [.showNotification "Browser Error"] else []
    let p := paramsSeen prior env.request
    let v := validateAndExchange p csrf env storedToken
    ⟨notif ++ v.1, v.2.1, v.2.2⟩

/-- Header-map lookup, modelling `response_headers[k]` / `k in response_headers`
after numeric lexing of the header values. -/
def lookupHeader (headers : List (String × ℚ)) (k : String) : Option ℚ :=
  (headers.find? (fun kv => kv.1 = k)).map Prod.snd

/-- Model of `OAuthRateLimiter.update` (source lines 284-318). If the
`x-ratelimit-remaining` key is absent, return with the state unchanged.
Otherwise the source indexes `x-ratelimit-used`, `x-ratelimit-remaining` and
`x-ratelimit-reset` directly, so a missing key raises `KeyError`. With all
three present: `remaining ≤ 0` sets the next-request timestamp to
`now + seconds_to_reset`, otherwise it is cleared to `None`. -/
def update (headers : List (String × ℚ)) (now : ℚ) (st : Option ℚ) :
    Except String (Option ℚ) :=
  if lookupHeader headers "x-ratelimit-remaining" = none then .ok st
  else
    match lookupHeader headers "x-ratelimit-used" with
    | none => .error "KeyError: x-ratelimit-used"
    | some _used =>
      match lookupHeader headers "x-ratelimit-remaining" with
      | none => .error "KeyError: x-ratelimit-remaining"
      | some remaining =>
        match lookupHeader headers "x-ratelimit-reset" with
        | none => .error "KeyError: x-ratelimit-reset"
        | some secondsToReset =>
          if remaining ≤ 0 then .ok (some (now + secondsToReset))
          else .ok none

/-- Model of `OAuthRateLimiter.delay` (source lines 272-282): returns the
number of seconds slept and the (unmodified) `next_request_timestamp`. -/
def delay (st : Option ℚ) (now : ℚ) : ℚ × Option ℚ :=
  match st with
  | none => (0, none)
  | some t =>
    let sleepSeconds := t - now
    if sleepSeconds ≤ 0 then (0, some t) else (sleepSeconds, some t)

/-- Outcome of one `OAuthRateLimiter.request` send: seconds slept before the
send, the response headers or the propagated exception, and the final
`next_request_timestamp`. -/
structure RequestOutcome where
  sleptSeconds : ℚ
  result : Except String (List (String × ℚ))
  finalState : Option ℚ
deriving Repr

/-- Model of the send pipeline in `OAuthRateLimiter.request` (source lines
327-331): `delay()`, then `http.send` (whose behaviour, a header map or a
raised transport error, is the `send` input), then `update()` on the response
headers. A raised send or a raising `update` leaves the state as `delay`
left it. -/
def request (st : Option ℚ) (now : ℚ) (send : Except String (List (String × ℚ)))
    (nowAfter : ℚ) : RequestOutcome :=
  let d := delay st now
  match send with
  | .error e => ⟨d.1, .error e, d.2⟩
  | .ok headers =>
    match update headers nowAfter d.2 with
    | .error e => ⟨d.1, .error e, d.2⟩
    | .ok st2 => ⟨d.1, .ok headers, st2⟩

/-- Model of the cache-key transformation inside `fix_cache`: unpack
`url, items = _cache_key` and rebuild the key from items 0, 1, 3, 4 (the
tuple indexing raises `IndexError` when an index is out of range). -/
def normalizeCacheKey (key : String × List String) :
    Except String (String × List String) :=
  match key.2.get? 0, key.2.get? 1, key.2.get? 3, key.2.get? 4 with
  | some i0, some i1, some i3, some i4 => .ok (key.1, [i0, i1, i3, i4])
  | _, _, _, _ => .error "IndexError: tuple index out of range"

/-- Model of the argument rewriting done by the `fix_cache` wrapper (source
lines 240-254): normalize a truthy cache key, and force `_cache_ignore` to
`True` whenever the request method is not `GET`. -/
def fix_cache_args (cacheKey : Option (String × List String)) (cacheIgnore : Bool)
    (method : String) : Except String (Option (String × List String) × Bool) :=
  let ignore := if method ≠ "GET" then true else cacheIgnore
  match cacheKey with
  | none => .ok (none, ignore)
  | some k =>
    match normalizeCacheKey k with
    | .error e => .error e
    | .ok k2 => .ok (some k2, ignore)

/-- Auxiliary: the stored value for a key is the value of the first pair
bound to that key whose value is non-blank (blank values are dropped by
`parse_qs` before the handler takes the first element). -/
theorem parseQs_head_eq_find (k : String) (l : List (String × String)) :
    (parseQsValues l k).head? =
      (l.find? (fun kv => kv.1 = k ∧ kv.2 ≠ "")).map Prod.snd := by
  induction l with
  | nil => rfl
  | cons kv t ih =>
    by_cases hk : kv.1 = k ∧ kv.2 ≠ ""
    · simp [parseQsValues, List.filter_cons, List.find?_cons, hk]
    · simp [parseQsValues, List.filter_cons, List.find?_cons, hk, ih]

/-- C2: for every combination of the three callback parameters, the response
message of `build_body` is selected by the spec's exact precedence: `error ==
"access_denied"` → denied; `error` present with any other value → provider
error parameterized by the error string; `state` or `code` absent → invalid;
otherwise success. -/
theorem build_body_matches_spec (p : CallbackParams) :
    build_body_message p = specMessageChoice p := by
  obtain ⟨s, c, e⟩ := p
  cases e with
  | none => simp [build_body_message, specMessageChoice]
  | some err =>
    by_cases h : err = "access_denied" <;>
      simp [build_body_message, specMessageChoice, h]

/-- C7 (code bug evaluation): on a request for a path other than `/`,
`do_GET` sends the 404 error but then still overwrites all three stored
callback params with the request's query values and writes a 200 response
with an HTML body, because the source lacks a `return` after
`send_error(404)`. -/
theorem do_GET_wrong_path_processes :
    do_GET ⟨some "old", some "oldc", none⟩ "/favicon.ico" [("state", "evil")] =
      ⟨[404, 200], ⟨some "evil", none, none⟩, true⟩ := rfl

/-- C10 counterexample: for the query `state=&state=x` the parameter `state`
occurs twice, but `parse_qs` (default `keep_blank_values=False`) drops the
blank first occurrence, so the handler stores the second occurrence's value
`x` — not the first occurrence's value (the empty string). -/
theorem callback_first_occurrence_counterexample :
    ([("state", ""), ("state", "x")].find? (fun kv => kv.1 = "state")).map Prod.snd =
      some "" ∧
    (writeParams [("state", ""), ("state", "x")]).state = some "x" ∧
    (writeParams [("state", ""), ("state", "x")]).state ≠ some "" := by
  refine ⟨rfl, rfl, by decide⟩

/-- C10 (amended): the handler stores, for each of the three parameters, the
value of the first occurrence whose value is non-blank (blank-valued
occurrences are silently dropped by `parse_qs`); later duplicates are
ignored, and a parameter that is absent, or bound only to blank values, is
stored as `None`. -/
theorem callback_first_nonblank_occurrence (query : List (String × String)) :
    (writeParams query).state =
      (query.find? (fun kv => kv.1 = "state" ∧ kv.2 ≠ "")).map Prod.snd ∧
    (writeParams query).code =
      (query.find? (fun kv => kv.1 = "code" ∧ kv.2 ≠ "")).map Prod.snd ∧
    (writeParams query).error =
      (query.find? (fun kv => kv.1 = "error" ∧ kv.2 ≠ "")).map Prod.snd :=
  ⟨parseQs_head_eq_find "state" query, parseQs_head_eq_find "code" query,
    parseQs_head_eq_find "error" query⟩

/-- C8: every `authorize` call begins by overwriting all three fields of the
shared params record with `None`, so its result never depends on the record's
prior contents, and when no callback request arrives the validation step sees
the all-absent record. -/
theorem authorize_resets_params (prior : CallbackParams) (storedToken : Option String)
    (refreshResult : RefreshCallResult) (env : InteractiveEnv) (csrf : String) :
    resetUpdate prior = ⟨none, none, none⟩ ∧
    paramsSeen prior env.request = paramsSeen ⟨none, none, none⟩ env.request ∧
    authorize prior storedToken refreshResult env csrf =
      authorize ⟨none, none, none⟩ storedToken refreshResult env csrf := by
  have hp : paramsSeen prior env.request = paramsSeen ⟨none, none, none⟩ env.request := by
    cases env.request <;> rfl
  exact ⟨rfl, hp, by simp only [authorize, hp]⟩

/-- C1: in an interactive attempt (no stored refresh token) whose callback
params carry no error and a state that differs from the generated
`csrfState`, `authorize` shows exactly the UUID-mismatch notification and
returns: `get_access_information` is never called and no refresh token is
stored or persisted. -/
theorem authorize_uuid_mismatch (prior : CallbackParams) (storedToken : Option String)
    (refreshResult : RefreshCallResult) (env : InteractiveEnv) (csrf s : String)
    (hTok : truthy storedToken = false)
    (hBrowser : env.browserOk = true)
    (hState : (paramsSeen prior env.request).state = some s)
    (hError : (paramsSeen prior env.request).error = none)
    (hMismatch : s ≠ csrf) :
    authorize prior storedToken refreshResult env csrf =
      ⟨[.showNotification "UUID mismatch"], .uuidMismatch, storedToken⟩ := by
  have htn : truthy none = false := rfl
  simp [authorize, validateAndExchange, hTok, hBrowser, hState, hError, htn, hMismatch]

/-- C1 witness: concrete mismatching callback (`state=abc` vs generated
`expected`) in graphical mode. -/
theorem authorize_uuid_mismatch_witness :
    authorize ⟨some "stale", some "stalecode", some "staleerr"⟩ none .success
        ⟨true, true, some [("state", "abc"), ("code", "xyz")], some "tok", "spez", true⟩
        "expected" =
      ⟨[.showNotification "UUID mismatch"], .uuidMismatch, none⟩ :=
  authorize_uuid_mismatch ⟨some "stale", some "stalecode", some "staleerr"⟩ none .success
    ⟨true, true, some [("state", "abc"), ("code", "xyz")], some "tok", "spez", true⟩
    "expected" "abc" rfl rfl rfl rfl (by decide)

/-- C3: with a stored refresh token, a refresh failure with HTTP status 400
or an OAuth-level error first clears authentication, then deletes the
persisted token, then raises `InvalidRefreshToken`; any other failure (for
example a 5xx status, or an exception of another class) propagates unchanged
with the stored credentials untouched and no retry. -/
theorem authorize_refresh_failure (prior : CallbackParams) (tok : String)
    (env : InteractiveEnv) (csrf n : String) (status : Nat)
    (hTok : tok ≠ "") (hStatus : status ≠ 400) :
    authorize prior (some tok) (.httpException 400) env csrf =
      ⟨[.clearAuthentication, .deleteRefreshToken], .raisedInvalidRefreshToken, none⟩ ∧
    authorize prior (some tok) .oauthException env csrf =
      ⟨[.clearAuthentication, .deleteRefreshToken], .raisedInvalidRefreshToken, none⟩ ∧
    authorize prior (some tok) (.httpException status) env csrf =
      ⟨[], .raisedOriginal (.httpException status), some tok⟩ ∧
    authorize prior (some tok) (.otherException n) env csrf =
      ⟨[], .raisedOriginal (.otherException n), some tok⟩ := by
  have htr : truthy (some tok) = true := by simp [truthy, hTok]
  refine ⟨?_, ?_, ?_, ?_⟩ <;>
    simp [authorize, refreshBranch, clear_oauth_data, htr, hStatus]

/-- C3 witness: concrete rejected refresh (status 400), OAuth error, a 503
server error and a foreign exception class. -/
theorem authorize_refresh_failure_witness :
    authorize ⟨none, none, none⟩ (some "t") (.httpException 400)
        ⟨false, true, none, none, "u", false⟩ "c" =
      ⟨[.clearAuthentication, .deleteRefreshToken], .raisedInvalidRefreshToken, none⟩ ∧
    authorize ⟨none, none, none⟩ (some "t") .oauthException
        ⟨false, true, none, none, "u", false⟩ "c" =
      ⟨[.clearAuthentication, .deleteRefreshToken], .raisedInvalidRefreshToken, none⟩ ∧
    authorize ⟨none, none, none⟩ (some "t") (.httpException 503)
        ⟨false, true, none, none, "u", false⟩ "c" =
      ⟨[], .raisedOriginal (.httpException 503), some "t"⟩ ∧
    authorize ⟨none, none, none⟩ (some "t") (.otherException "RuntimeError")
        ⟨false, true, none, none, "u", false⟩ "c" =
      ⟨[], .raisedOriginal (.otherException "RuntimeError"), some "t"⟩ :=
  authorize_refresh_failure ⟨none, none, none⟩ "t" ⟨false, true, none, none, "u", false⟩
    "c" "RuntimeError" 503 (by decide) (by decide)

/-- Auxiliary: `delay` never modifies `next_request_timestamp`. -/
theorem delay_snd (st : Option ℚ) (now : ℚ) : (delay st now).2 = st := by
  cases st with
  | none => rfl
  | some t =>
    unfold delay
    by_cases h : t - now ≤ 0 <;> simp [h]

/-- C5: `delay()` returns immediately when no next-allowed timestamp is set
or when the remaining time is non-positive, blocks for exactly the remaining
time otherwise, and never modifies `next_request_timestamp`. -/
theorem delay_spec (st : Option ℚ) (now : ℚ) :
    (delay st now).2 = st ∧
    (st = none → (delay st now).1 = 0) ∧
    ∀ t, st = some t →
      (t - now ≤ 0 → (delay st now).1 = 0) ∧
      (0 < t - now → (delay st now).1 = t - now) := by
  refine ⟨delay_snd st now, ?_, ?_⟩
  · rintro rfl; rfl
  · rintro t rfl
    constructor
    · intro hle; simp [delay, hle]
    · intro hlt; simp [delay, not_le.mpr hlt]

/-- C5 witness: a timestamp 30 seconds in the future sleeps exactly 30
seconds and leaves the timestamp unchanged. -/
theorem delay_spec_witness :
    (delay (some 130) 100).1 = 30 ∧ (delay (some 130) 100).2 = some 130 := by
  have h := delay_spec (some 130) 100
  have h30 := (h.2.2 130 rfl).2 (by norm_num)
  exact ⟨by rw [h30]; norm_num, h.1⟩

/-- C4 counterexample: with `x-ratelimit-remaining` present (value 0) and
`x-ratelimit-reset` present (value 30) but `x-ratelimit-used` absent, the
claim predicts the timestamp is set to now + 30, but `update` raises a
`KeyError` instead. -/
theorem update_claim_counterexample :
    update [("x-ratelimit-remaining", 0), ("x-ratelimit-reset", 30)] 100 none =
      .error "KeyError: x-ratelimit-used" ∧
    update [("x-ratelimit-remaining", 0), ("x-ratelimit-reset", 30)] 100 none ≠
      .ok (some 130) := by
  have h1 : update [("x-ratelimit-remaining", 0), ("x-ratelimit-reset", 30)] 100 none =
      .error "KeyError: x-ratelimit-used" := rfl
  exact ⟨h1, by rw [h1]; exact fun h => Except.noConfusion h⟩

/-- C4 amended: if `x-ratelimit-remaining` is absent the state is unchanged;
if all three quota headers are present, `remaining ≤ 0` sets the timestamp to
now + reset and `remaining > 0` clears it; if `remaining` is present but
`used` (or `reset`) is absent, `update` raises a `KeyError` and the timestamp
is not assigned. -/
theorem update_amended (headers : List (String × ℚ)) (now : ℚ) (st : Option ℚ) :
    (lookupHeader headers "x-ratelimit-remaining" = none → update headers now st = .ok st) ∧
    (∀ u r z, lookupHeader headers "x-ratelimit-used" = some u →
      lookupHeader headers "x-ratelimit-remaining" = some r →
      lookupHeader headers "x-ratelimit-reset" = some z →
      update headers now st = .ok (if r ≤ 0 then some (now + z) else none)) ∧
    (∀ r, lookupHeader headers "x-ratelimit-remaining" = some r →
      lookupHeader headers "x-ratelimit-used" = none →
      update headers now st = .error "KeyError: x-ratelimit-used") ∧
    (∀ u r, lookupHeader headers "x-ratelimit-remaining" = some r →
      lookupHeader headers "x-ratelimit-used" = some u →
      lookupHeader headers "x-ratelimit-reset" = none →
      update headers now st = .error "KeyError: x-ratelimit-reset") := by
  refine ⟨fun h => by simp [update, h],
    fun u r z hu hr hz => ?_,
    fun r hr hu => by simp [update, hu, hr],
    fun u r hr hu hz => by simp [update, hu, hr, hz]⟩
  by_cases hrr : r ≤ 0 <;> simp [update, hu, hr, hz, hrr]

/-- C4 amended witness: all three headers present with zero remaining quota
sets the timestamp to now + reset. -/
theorem update_amended_witness :
    update [("x-ratelimit-used", 1), ("x-ratelimit-remaining", 0),
      ("x-ratelimit-reset", 30)] 100 (some 5) = .ok (some 130) := by
  have h := (update_amended [("x-ratelimit-used", 1), ("x-ratelimit-remaining", 0),
    ("x-ratelimit-reset", 30)] 100 (some 5)).2.1 1 0 30 rfl rfl rfl
  rw [h]; norm_num

/-- C6 counterexample: the rate limiter can raise on its own account — a
header map carrying `x-ratelimit-remaining` but not `x-ratelimit-used` makes
`update` raise a `KeyError`. -/
theorem rate_limiter_raises_counterexample :
    update [("x-ratelimit-remaining", 5)] 0 (some 7) =
      .error "KeyError: x-ratelimit-used" := rfl

/-- C6 amended: `update` completes without raising whenever the
`x-ratelimit-remaining` header is absent or all three quota headers are
present; a transport failure raised by the underlying send propagates
unchanged out of `request` and leaves `next_request_timestamp` untouched,
because `update` is never reached. -/
theorem rate_limiter_no_raise_amended (headers : List (String × ℚ))
    (now nowAfter : ℚ) (st : Option ℚ) (e : String) :
    (lookupHeader headers "x-ratelimit-remaining" = none → update headers now st = .ok st) ∧
    (∀ u r z, lookupHeader headers "x-ratelimit-used" = some u →
      lookupHeader headers "x-ratelimit-remaining" = some r →
      lookupHeader headers "x-ratelimit-reset" = some z →
      update headers now st = .ok (if r ≤ 0 then some (now + z) else none)) ∧
    request st now (.error e) nowAfter = ⟨(delay st now).1, .error e, st⟩ := by
  refine ⟨fun h => by simp [update, h],
    fun u r z hu hr hz => by
      by_cases hrr : r ≤ 0 <;> simp [update, hu, hr, hz, hrr],
    ?_⟩
  simp [request, delay_snd]

/-- C6 amended witness: a quota-free response leaves the state unchanged
without raising, and a concrete transport error propagates with the state
untouched. -/
theorem rate_limiter_no_raise_witness :
    update [("content-type", 1)] 50 (some 9) = .ok (some 9) ∧
    request (some 9) 50 (.error "ConnectionError") 51 =
      ⟨0, .error "ConnectionError", some 9⟩ := by
  have h := rate_limiter_no_raise_amended [("content-type", 1)] 50 51 (some 9)
    "ConnectionError"
  exact ⟨h.1 rfl, h.2.2.trans (by norm_num [delay])⟩

/-- C9 counterexample: the cache-key normalization is not idempotent — on a
five-element key one application succeeds, but applying it to its own output
(a four-element key) raises an `IndexError`. -/
theorem fix_cache_not_idempotent :
    normalizeCacheKey ("url", ["a", "b", "c", "d", "e"]) =
      .ok ("url", ["a", "b", "d", "e"]) ∧
    normalizeCacheKey ("url", ["a", "b", "d", "e"]) =
      .error "IndexError: tuple index out of range" ∧
    (normalizeCacheKey ("url", ["a", "b", "c", "d", "e"])).bind normalizeCacheKey ≠
      normalizeCacheKey ("url", ["a", "b", "c", "d", "e"]) := by
  refine ⟨rfl, rfl, fun h => Except.noConfusion h⟩

/-- C9 amended: the normalization drops the volatile third component of a
five-element cache key; it is not idempotent, since a second application
raises an `IndexError`; and for every non-GET method the wrapper forces
cache-bypass regardless of the caller-supplied hint. -/
theorem fix_cache_amended (url a b c d e : String) (ignore : Bool) (method : String)
    (hm : method ≠ "GET") :
    normalizeCacheKey (url, [a, b, c, d, e]) = .ok (url, [a, b, d, e]) ∧
    (normalizeCacheKey (url, [a, b, c, d, e])).bind normalizeCacheKey =
      .error "IndexError: tuple index out of range" ∧
    fix_cache_args (some (url, [a, b, c, d, e])) ignore method =
      .ok (some (url, [a, b, d, e]), true) ∧
    fix_cache_args none ignore method = .ok (none, true) := by
  refine ⟨rfl, rfl, ?_, ?_⟩ <;> simp [fix_cache_args, normalizeCacheKey, hm]

/-- C9 amended witness: a POST request with a five-element cache key gets the
normalized key and forced cache-bypass. -/
theorem fix_cache_amended_witness :
    fix_cache_args (some ("url", ["d0", "c0", "h0", "m0", "t0"])) false "POST" =
      .ok (some ("url", ["d0", "c0", "m0", "t0"]), true) :=
  (fix_cache_amended "url" "d0" "c0" "h0" "m0" "t0" false "POST" (by decide)).2.2.1

end RTV
